import Mathlib

/-! Verification of the Zipf workload generator (`bench/zipf.go`).

The file shallowly embeds the `Zipf` benchmark struct, its `Init` method and
its `Run` method.  Go `int64`/`int` values are modelled as `Int` (with the
`uint64`/`int64` conversions of the source made explicit where they occur),
Go `float64` values are modelled as real numbers for the offset formula and
as rationals inside the configuration record (the executable core never
branches on them).  External collaborators that are not part of the source
file (`PermutationGenerator`, `HasClient`, `initIndex`, the statistics sink
and Go's `math/rand.Zipf` sampler) are modelled from the spec; each such
definition carries a doc comment saying so. -/

namespace ZipfBench

/-- Embeds `getZipfOffset` (zipf.go): `z := math.Pow(ratio, 1/exp);
return z * float64(N-1) / (1 - z)`, with `float64` modelled by `ℝ`. -/
noncomputable def getZipfOffset (N : Int) (e r : ℝ) : ℝ :=
  let z := r ^ (1 / e)
  z * ((N : ℝ) - 1) / (1 - z)

/-- The ratio-to-offset formula exactly as the spec words it (section 4.1):
let `z = r^(1/e)`; `offset = z * (N-1) / (1 - z)`.  Stated separately from
`getZipfOffset` so the source formula can be compared against it. -/
noncomputable def specZipfOffset (N : Int) (e r : ℝ) : ℝ :=
  (r ^ (1 / e)) * ((N : ℝ) - 1) / (1 - (r ^ (1 / e)))

/-- Go conversion `uint64(x)` of an `int64` value: the value modulo `2^64`,
as a natural number. -/
def uint64OfInt (x : Int) : Nat :=
  (x % (2 ^ 64 : Int)).toNat

/-- Go conversion `int64(v)` of a `uint64` value: two's-complement
reinterpretation. -/
def int64OfUint64 (v : Nat) : Int :=
  if v < 2 ^ 63 then (v : Int) else (v : Int) - 2 ^ 64

/-- Modelled from the spec: the deterministic pseudo-random stream behind
`rand.New(rand.NewSource(seed))` (Go standard library, not part of the
repository).  Only determinism in `(seed, cursor)` matters to the claims, so
a concrete linear-congruential mix stands in for Go's generator. -/
def randStream (seed : Int) (cursor : Nat) : Nat :=
  (seed.natAbs * 1103515245 + cursor * 12345 + 17) % 2147483648

/-- Modelled from the spec: one draw of the `rand.Zipf` sampler
(`SkewedIdSampler`, section 4.2): a deterministic function of the seeded
stream position returning a rank in `[0, imax]` (Go's `rand.NewZipf` is
constructed with `imax = uint64(N-1)`).  The distribution shape (exponent
and offset) only biases which in-range value is drawn, so it is abstracted
away; the claims depend on determinism and the range only. -/
def zipfUint64 (seed : Int) (cursor : Nat) (imax : Nat) : Nat :=
  randStream seed cursor % (imax + 1)

/-- Modelled from the spec: `PermutationGenerator.Next`
(`bench/permutation.go`, not in `src/`; spec section 4.3): a deterministic,
seed-keyed bijection on `[0, N)`; a rank outside `[0, N)` violates the
precondition and fails with an out-of-range error (`none`).  A concrete
rotation stands in for the repository's shuffle-based bijection. -/
def permNext (n seed rank : Int) : Option Int :=
  if 0 ≤ rank ∧ rank < n then some ((rank + seed) % n) else none

/-- The configuration fields of the `Zipf` struct (zipf.go).  The `float64`
parameters are carried as rationals: the embedded `Init`/`Run` control flow
never inspects them (exactly as in the source, where they are only passed
to `rand.NewZipf`). -/
structure ZipfConfig where
  name : String
  baseBitmapID : Int
  baseProfileID : Int
  bitmapIDRange : Int
  profileIDRange : Int
  iterations : Int
  seed : Int
  index : String
  frame : String
  bitmapExponent : ℚ
  bitmapRatio : ℚ
  profileExponent : ℚ
  profileRatio : ℚ
  operation : String
deriving DecidableEq

/-- Observable events of `Zipf.Init`, in the order the source performs them:
sampler construction (`rand.NewZipf`), permutation-generator construction,
rejection of an unsupported operation, the non-fatal `initIndex` provisioning
call, and the final `HasClient.Init` call. -/
inductive InitEvent where
  | samplerBuilt (seed : Int) (imax : Nat)
  | permBuilt (n : Int) (seed : Int)
  | opRejected (op : String)
  | provisionFailedLogged (msg : String)
  | provisionOk
  | clientInit (ok : Bool)
deriving DecidableEq

/-- The state `Zipf.Init` leaves behind in the struct: the updated seed, the
two samplers (represented by their shared stream seed and their `imax`
bounds), the two permutation generators (their domain sizes and seeds) and
whether a client was set. -/
structure ZipfState where
  cfg : ZipfConfig
  bitmapImax : Nat
  profileImax : Nat
  bitmapPermN : Int
  profilePermN : Int
  bitmapPermSeed : Int
  profilePermSeed : Int
  rngSeed : Int
  clientSet : Bool
deriving DecidableEq

/-- The state built by a successful `Zipf.Init cfg agentNum`: `b.Name` is set
to `"zipf"`, `b.Seed` becomes `Seed + agentNum`, one shared stream seeded
with that seed feeds both samplers (`imax = uint64(Range-1)`), and the
permutation generators are built over the two ranges with seeds `b.Seed` and
`b.Seed + 1`. -/
def zipfInitState (cfg : ZipfConfig) (agentNum : Int) (clientOk : Bool) : ZipfState :=
  { cfg := { cfg with name := "zipf", seed := cfg.seed + agentNum }
    bitmapImax := uint64OfInt (cfg.bitmapIDRange - 1)
    profileImax := uint64OfInt (cfg.profileIDRange - 1)
    bitmapPermN := cfg.bitmapIDRange
    profilePermN := cfg.profileIDRange
    bitmapPermSeed := cfg.seed + agentNum
    profilePermSeed := cfg.seed + agentNum + 1
    rngSeed := cfg.seed + agentNum
    clientSet := clientOk }

/-- The construction events `Zipf.Init` performs before it validates the
operation: both `rand.NewZipf` samplers, then both permutation generators. -/
def constructionEvents (cfg : ZipfConfig) (agentNum : Int) : List InitEvent :=
  [InitEvent.samplerBuilt (cfg.seed + agentNum) (uint64OfInt (cfg.bitmapIDRange - 1)),
   InitEvent.samplerBuilt (cfg.seed + agentNum) (uint64OfInt (cfg.profileIDRange - 1)),
   InitEvent.permBuilt cfg.bitmapIDRange (cfg.seed + agentNum),
   InitEvent.permBuilt cfg.profileIDRange (cfg.seed + agentNum + 1)]

/-- Embeds `Zipf.Init` (zipf.go).  `provErr` is the outcome of the external
`initIndex` provisioning call and `clientRes` the outcome of the external
`HasClient.Init` call (both collaborators are outside the source file).  The
source constructs both samplers and both permutation generators first, then
rejects an unsupported operation, then calls `initIndex` and only prints a
failure, and finally returns whatever `HasClient.Init` returns. -/
def zipfInit (cfg : ZipfConfig) (agentNum : Int) (provErr : Option String)
    (clientRes : Except String Unit) : Except String ZipfState × List InitEvent :=
  if cfg.operation ≠ "set" ∧ cfg.operation ≠ "clear" then
    (Except.error ("Unsupported operation: \"" ++ cfg.operation ++ "\" (must be \"set\" or \"clear\")"),
     constructionEvents cfg agentNum ++ [InitEvent.opRejected cfg.operation])
  else
    match clientRes with
    | Except.error e =>
        (Except.error e,
         constructionEvents cfg agentNum ++ provLog provErr ++ [InitEvent.clientInit false])
    | Except.ok _ =>
        (Except.ok (zipfInitState cfg agentNum true),
         constructionEvents cfg agentNum ++ provLog provErr ++ [InitEvent.clientInit true])
where
  provLog : Option String → List InitEvent
    | some e => [InitEvent.provisionFailedLogged e]
    | none => [InitEvent.provisionOk]

/-- Embeds the `fmt.Sprintf` in `Zipf.Run` building one query:
`"%s(frame='%s', rowID=%d, columnID=%d)"`. -/
def mkQuery (op frame : String) (rowID colID : Int) : String :=
  op ++ "(frame='" ++ frame ++ "', rowID=" ++ toString rowID ++
    ", columnID=" ++ toString colID ++ ")"

/-- The permuted bitmap (row) id produced at stream position `cursor`:
`b.bitmapPerm.Next(int64(b.bitmapRng.Uint64()))`. -/
def rowIdAtCur (st : ZipfState) (cursor : Nat) : Option Int :=
  permNext st.bitmapPermN st.bitmapPermSeed
    (int64OfUint64 (zipfUint64 st.rngSeed cursor st.bitmapImax))

/-- The permuted profile (column) id produced at stream position `cursor`:
`b.profilePerm.Next(int64(b.profileRng.Uint64()))`. -/
def colIdAtCur (st : ZipfState) (cursor : Nat) : Option Int :=
  permNext st.profilePermN st.profilePermSeed
    (int64OfUint64 (zipfUint64 st.rngSeed cursor st.profileImax))

/-- Outcome of the iteration loop of `Zipf.Run`: the execution error that
aborted it (if any), whether a rank violated the permutation precondition
(the spec-modelled defensive fatal error; the source never handles it because
it cannot occur, see the safety theorem), the queries sent, the absolute
`(row id, column id)` pairs emitted, and how many latencies were recorded
(`s.Add` calls, one per successful execution). -/
structure LoopOut where
  errMsg : Option String
  rankErr : Bool
  queries : List String
  idPairs : List (Int × Int)
  statsAdds : Nat
deriving DecidableEq

/-- Embeds the `for n := 0; n < b.Iterations; n++` loop of `Zipf.Run`.
`exec` is the external `b.client.ExecuteQuery` capability (its first
argument is the cancellation signal `ctx`, its second the index of the call,
its third the query text); per Go iteration the shared stream advances by
one position for the bitmap draw and one for the profile draw. -/
def runLoop (st : ZipfState) (exec : Bool → Nat → String → Option String)
    (ctx : Bool) (opName : String) : Nat → Nat → Nat → LoopOut
  | 0, _, _ =>
      { errMsg := none, rankErr := false, queries := [], idPairs := [], statsAdds := 0 }
  | r + 1, n, cursor =>
      match rowIdAtCur st cursor, colIdAtCur st (cursor + 1) with
      | some bitmapID, some profID =>
          match exec ctx n (mkQuery opName st.cfg.frame
              (st.cfg.baseBitmapID + bitmapID) (st.cfg.baseProfileID + profID)) with
          | some e =>
              { errMsg := some e, rankErr := false
                queries := [mkQuery opName st.cfg.frame
                  (st.cfg.baseBitmapID + bitmapID) (st.cfg.baseProfileID + profID)]
                idPairs := [(st.cfg.baseBitmapID + bitmapID, st.cfg.baseProfileID + profID)]
                statsAdds := 0 }
          | none =>
              let rest := runLoop st exec ctx opName r (n + 1) (cursor + 2)
              { errMsg := rest.errMsg, rankErr := rest.rankErr
                queries := mkQuery opName st.cfg.frame
                  (st.cfg.baseBitmapID + bitmapID) (st.cfg.baseProfileID + profID) :: rest.queries
                idPairs := (st.cfg.baseBitmapID + bitmapID, st.cfg.baseProfileID + profID) :: rest.idPairs
                statsAdds := rest.statsAdds + 1 }
      | _, _ =>
          { errMsg := none, rankErr := true, queries := [], idPairs := [], statsAdds := 0 }

/-- The value `Zipf.Run` returns, with its observable behavior: the results
map (`error` entry on failure, statistics — represented by their count — on
completion), the queries actually sent, the emitted id pairs, the number of
recorded latencies, and the defensive rank-failure flag. -/
structure RunResult where
  results : List (String × String)
  queries : List String
  idPairs : List (Int × Int)
  statsAdds : Nat
  rankFailure : Bool
deriving DecidableEq

/-- Embeds the operation-name selection of `Zipf.Run`: `operation := "SetBit"`,
overwritten by `"ClearBit"` when the configured operation is `"clear"`. -/
def opString (op : String) : String :=
  if op = "clear" then "ClearBit" else "SetBit"

/-- Packages a finished loop into the value `Zipf.Run` returns: an execution
error is recorded under `"error"` (and the statistics are dropped, as in the
source, where `AddToResults` is skipped); otherwise the accumulated
statistics (their count, modelled from the spec's result surface) are
added. -/
def mkRunResult (o : LoopOut) : RunResult :=
  { results :=
      match o.errMsg, o.rankErr with
      | some e, _ => [("error", e)]
      | none, true => [("error", "rank out of range")]
      | none, false => [("count", toString o.statsAdds)]
    queries := o.queries, idPairs := o.idPairs, statsAdds := o.statsAdds
    rankFailure := o.rankErr }

/-- Embeds `Zipf.Run` (zipf.go): returns only an error entry if no client is
set; otherwise selects the operation name, runs the loop for
`Iterations` iterations, and packages the outcome. -/
def zipfRun (st : ZipfState) (exec : Bool → Nat → String → Option String)
    (ctx : Bool) : RunResult :=
  if st.clientSet = false then
    { results := [("error", "No client set for Zipf")], queries := [], idPairs := []
      statsAdds := 0, rankFailure := false }
  else
    mkRunResult (runLoop st exec ctx (opString st.cfg.operation) st.cfg.iterations.toNat 0 0)

/-- The row id drawn and permuted on iteration `n` (the loop starts at stream
position 0 and advances it by two per iteration). -/
def rowRankAt (st : ZipfState) (n : Nat) : Option Int :=
  rowIdAtCur st (2 * n)

/-- The column id drawn and permuted on iteration `n`. -/
def colRankAt (st : ZipfState) (n : Nat) : Option Int :=
  colIdAtCur st (2 * n + 1)

/-- The condition under which the sampler bounds match the permutation
domains: each sampler's `imax` fits in `int64` and is below the
corresponding permutation generator's domain size.  Successful construction
with matching domain sizes (`imax = Range - 1` and permutation domain
`Range`, for `1 ≤ Range ≤ 2^63`) guarantees it. -/
def PermSafe (st : ZipfState) : Prop :=
  st.bitmapImax < 2 ^ 63 ∧ (st.bitmapImax : Int) < st.bitmapPermN ∧
    st.profileImax < 2 ^ 63 ∧ (st.profileImax : Int) < st.profilePermN

instance (st : ZipfState) : Decidable (PermSafe st) := by
  unfold PermSafe; infer_instance

/-- A small valid configuration used to evaluate the theorems on concrete
inputs. -/
def cfgGood : ZipfConfig :=
  { name := "", baseBitmapID := 100, baseProfileID := 2000
    bitmapIDRange := 4, profileIDRange := 5, iterations := 3, seed := 7
    index := "idx", frame := "f", bitmapExponent := 3/2, bitmapRatio := 1/4
    profileExponent := 2, profileRatio := 1/2, operation := "set" }

/-- `cfgGood` with ten iterations, for the driver-abort evaluation. -/
def cfgTen : ZipfConfig :=
  { cfgGood with iterations := 10 }

/-- `cfgGood` with two iterations, for the cancellation evaluation. -/
def cfgTwo : ZipfConfig :=
  { cfgGood with iterations := 2 }

/-- `cfgGood` with the unsupported operation `"flip"`. -/
def cfgFlip : ZipfConfig :=
  { cfgGood with operation := "flip" }

/-- `cfgGood` with the invalid parameter `bitmapRatio = 1` (the spec requires
the ratio to lie strictly inside `(0,1)`; at 1 the offset formula divides by
zero). -/
def cfgRatioOne : ZipfConfig :=
  { cfgGood with bitmapRatio := 1 }

/-- An execution capability that succeeds on the first four calls and fails
on the fifth (call index 4) with message `"boom"`, used to evaluate the
driver-abort theorem on a concrete input. -/
def execBoom : Bool → Nat → String → Option String :=
  fun _ n _ => if n = 4 then some ("boom") else none

/-! Helper lemmas about the sampler range and the permutation precondition. -/

lemma zipfUint64_le (seed : Int) (cur imax : Nat) : zipfUint64 seed cur imax ≤ imax :=
  Nat.lt_succ_iff.mp (Nat.mod_lt _ (Nat.succ_pos imax))

lemma int64OfUint64_of_lt {v : Nat} (h : v < 2 ^ 63) : int64OfUint64 v = (v : Int) :=
  if_pos h

lemma permNext_eq_some (n s : Int) (v : Nat) (hv : v < 2 ^ 63) (hn : (v : Int) < n) :
    permNext n s (int64OfUint64 v) = some (((v : Int) + s) % n) := by
  rw [permNext, int64OfUint64_of_lt hv]
  exact if_pos ⟨Int.natCast_nonneg v, hn⟩

lemma rowIdAtCur_some (st : ZipfState) (h1 : st.bitmapImax < 2 ^ 63)
    (h2 : (st.bitmapImax : Int) < st.bitmapPermN) (cur : Nat) :
    ∃ b, rowIdAtCur st cur = some b := by
  refine ⟨_, permNext_eq_some _ _ _ ?_ ?_⟩
  · exact lt_of_le_of_lt (zipfUint64_le _ _ _) h1
  · exact lt_of_le_of_lt (Int.ofNat_le.mpr (zipfUint64_le _ _ _)) h2

lemma colIdAtCur_some (st : ZipfState) (h1 : st.profileImax < 2 ^ 63)
    (h2 : (st.profileImax : Int) < st.profilePermN) (cur : Nat) :
    ∃ b, colIdAtCur st cur = some b := by
  refine ⟨_, permNext_eq_some _ _ _ ?_ ?_⟩
  · exact lt_of_le_of_lt (zipfUint64_le _ _ _) h1
  · exact lt_of_le_of_lt (Int.ofNat_le.mpr (zipfUint64_le _ _ _)) h2

/-! Helper lemmas about the iteration loop. -/

lemma runLoop_rankErr_false (st : ZipfState) (exec : Bool → Nat → String → Option String)
    (ctx : Bool) (op : String) (h : PermSafe st) :
    ∀ r n cur, (runLoop st exec ctx op r n cur).rankErr = false := by
  intro r
  induction r with
  | zero => intro n cur; rfl
  | succ r ih =>
      intro n cur
      obtain ⟨h1, h2, h3, h4⟩ := h
      obtain ⟨b, hb⟩ := rowIdAtCur_some st h1 h2 cur
      obtain ⟨p, hp⟩ := colIdAtCur_some st h3 h4 (cur + 1)
      rw [runLoop, hb, hp]
      dsimp only
      cases exec ctx n (mkQuery op st.cfg.frame (st.cfg.baseBitmapID + b)
          (st.cfg.baseProfileID + p)) with
      | some e => rfl
      | none => exact ih (n + 1) (cur + 2)

lemma runLoop_exec_congr (st : ZipfState) (e1 e2 : Bool → Nat → String → Option String)
    (c1 c2 : Bool) (op : String) (h : ∀ n q, e1 c1 n q = e2 c2 n q) :
    ∀ r n cur, runLoop st e1 c1 op r n cur = runLoop st e2 c2 op r n cur := by
  intro r
  induction r with
  | zero => intro n cur; rfl
  | succ r ih =>
      intro n cur
      rw [runLoop, runLoop]
      cases rowIdAtCur st cur with
      | none => rfl
      | some b =>
          cases colIdAtCur st (cur + 1) with
          | none => rfl
          | some p =>
              dsimp only
              rw [h n (mkQuery op st.cfg.frame (st.cfg.baseBitmapID + b)
                (st.cfg.baseProfileID + p))]
              cases e2 c2 n (mkQuery op st.cfg.frame (st.cfg.baseBitmapID + b)
                  (st.cfg.baseProfileID + p)) with
              | some e => rfl
              | none => rw [ih (n + 1) (cur + 2)]

lemma zipfRun_exec_congr (st : ZipfState) (e1 e2 : Bool → Nat → String → Option String)
    (c1 c2 : Bool) (h : ∀ n q, e1 c1 n q = e2 c2 n q) :
    zipfRun st e1 c1 = zipfRun st e2 c2 := by
  unfold zipfRun
  by_cases hc : st.clientSet = false
  · rw [if_pos hc, if_pos hc]
  · rw [if_neg hc, if_neg hc, runLoop_exec_congr st e1 e2 c1 c2 _ h]

/-! Helper lemmas about `Init` and the run wrapper. -/

lemma zipfInit_ok (cfg : ZipfConfig) (agentNum : Int) (pe : Option String)
    (hop : cfg.operation = "set" ∨ cfg.operation = "clear") :
    (zipfInit cfg agentNum pe (Except.ok ())).1 =
      Except.ok (zipfInitState cfg agentNum true) := by
  unfold zipfInit
  rw [if_neg]
  intro hcon
  rcases hop with h | h
  · exact hcon.1 h
  · exact hcon.2 h

lemma zipfInit_ok_inv (cfg : ZipfConfig) (agentNum : Int) (pe : Option String)
    (st : ZipfState)
    (h : (zipfInit cfg agentNum pe (Except.ok ())).1 = Except.ok st) :
    st = zipfInitState cfg agentNum true := by
  unfold zipfInit at h
  by_cases hcon : cfg.operation ≠ "set" ∧ cfg.operation ≠ "clear"
  · rw [if_pos hcon] at h
    exact absurd h (by simp)
  · rw [if_neg hcon] at h
    exact (Except.ok.inj h).symm

lemma uint64OfInt_small {x : Int} (h0 : 0 ≤ x) (h1 : x < 2 ^ 64) :
    (uint64OfInt x : Int) = x := by
  unfold uint64OfInt
  rw [Int.emod_eq_of_lt h0 h1, Int.toNat_of_nonneg h0]

lemma permSafe_initState (cfg : ZipfConfig) (agentNum : Int) (clientOk : Bool)
    (hb1 : 0 < cfg.bitmapIDRange) (hb2 : cfg.bitmapIDRange ≤ 2 ^ 63)
    (hp1 : 0 < cfg.profileIDRange) (hp2 : cfg.profileIDRange ≤ 2 ^ 63) :
    PermSafe (zipfInitState cfg agentNum clientOk) := by
  have hbi : ((zipfInitState cfg agentNum clientOk).bitmapImax : Int) =
      cfg.bitmapIDRange - 1 := uint64OfInt_small (by omega) (by omega)
  have hpi : ((zipfInitState cfg agentNum clientOk).profileImax : Int) =
      cfg.profileIDRange - 1 := uint64OfInt_small (by omega) (by omega)
  have hbn : (zipfInitState cfg agentNum clientOk).bitmapPermN = cfg.bitmapIDRange := rfl
  have hpn : (zipfInitState cfg agentNum clientOk).profilePermN = cfg.profileIDRange := rfl
  refine ⟨?_, ?_, ?_, ?_⟩ <;> omega

lemma zipfRun_eq (st : ZipfState) (exec : Bool → Nat → String → Option String)
    (ctx : Bool) (h : st.clientSet = true) :
    zipfRun st exec ctx =
      mkRunResult (runLoop st exec ctx (opString st.cfg.operation)
        st.cfg.iterations.toNat 0 0) := by
  unfold zipfRun
  rw [if_neg (by simp [h])]

lemma mkRunResult_queries (o : LoopOut) : (mkRunResult o).queries = o.queries := rfl

lemma mkRunResult_idPairs (o : LoopOut) : (mkRunResult o).idPairs = o.idPairs := rfl

lemma mkRunResult_statsAdds (o : LoopOut) : (mkRunResult o).statsAdds = o.statsAdds := rfl

lemma mkRunResult_rankFailure (o : LoopOut) : (mkRunResult o).rankFailure = o.rankErr := rfl

lemma mkRunResult_results_of_err (o : LoopOut) (e : String) (h : o.errMsg = some e) :
    (mkRunResult o).results = [("error", e)] := by
  unfold mkRunResult
  rw [h]

lemma mkRunResult_results_keys (o : LoopOut) :
    ∀ kv ∈ (mkRunResult o).results, kv.1 = "error" ∨ kv.1 = "count" := by
  intro kv hkv
  unfold mkRunResult at hkv
  cases he : o.errMsg with
  | some e =>
      rw [he] at hkv
      dsimp only at hkv
      simp only [List.mem_singleton] at hkv
      subst hkv
      exact Or.inl rfl
  | none =>
      rw [he] at hkv
      cases hr : o.rankErr with
      | true =>
          rw [hr] at hkv
          dsimp only at hkv
          simp only [List.mem_singleton] at hkv
          subst hkv
          exact Or.inl rfl
      | false =>
          rw [hr] at hkv
          dsimp only at hkv
          simp only [List.mem_singleton] at hkv
          subst hkv
          exact Or.inr rfl

/-- When the execution capability succeeds on every call of index below `K`
and fails on every call of index `K` with message `ee`, the loop (entered at
call index `n ≤ K`, with enough remaining iterations) sends exactly
`K - n + 1` queries, records `K - n` latencies, and carries the error out. -/
lemma runLoop_abort (st : ZipfState) (exec : Bool → Nat → String → Option String)
    (ctx : Bool) (op : String) (hsafe : PermSafe st) (K : Nat) (ee : String)
    (hok : ∀ c j q, j < K → exec c j q = none)
    (hfail : ∀ c q, exec c K q = some ee) :
    ∀ r n cur, n ≤ K → K < n + r →
      (runLoop st exec ctx op r n cur).errMsg = some ee ∧
      (runLoop st exec ctx op r n cur).queries.length = K - n + 1 ∧
      (runLoop st exec ctx op r n cur).statsAdds = K - n := by
  intro r
  induction r with
  | zero => intro n cur h1 h2; exact absurd h2 (by omega)
  | succ r ih =>
      intro n cur h1 h2
      obtain ⟨s1, s2, s3, s4⟩ := hsafe
      obtain ⟨b, hb⟩ := rowIdAtCur_some st s1 s2 cur
      obtain ⟨p, hp⟩ := colIdAtCur_some st s3 s4 (cur + 1)
      rw [runLoop, hb, hp]
      dsimp only
      by_cases hnk : n = K
      · subst hnk
        rw [hfail]
        exact ⟨rfl, by simp, by simp⟩
      · rw [hok ctx n _ (by omega)]
        obtain ⟨ih1, ih2, ih3⟩ := ih (n + 1) (cur + 2) (by omega) (by omega)
        refine ⟨ih1, ?_, ?_⟩
        · dsimp only [List.length_cons]
          omega
        · dsimp only
          omega

/-- Every query the loop emits has the closed form built from the drawn and
permuted ids of its iteration (the loop enters iteration `n` at stream
position `2 * n`). -/
lemma runLoop_queries_get (st : ZipfState) (exec : Bool → Nat → String → Option String)
    (ctx : Bool) (op : String) :
    ∀ r n i q, (runLoop st exec ctx op r n (2 * n)).queries.get? i = some q →
      ∃ b p, rowRankAt st (n + i) = some b ∧ colRankAt st (n + i) = some p ∧
        q = mkQuery op st.cfg.frame (st.cfg.baseBitmapID + b) (st.cfg.baseProfileID + p) := by
  intro r
  induction r with
  | zero =>
      intro n i q hq
      exact absurd hq (by simp [runLoop])
  | succ r ih =>
      intro n i q hq
      rw [runLoop] at hq
      cases hb : rowIdAtCur st (2 * n) with
      | none => rw [hb] at hq; exact absurd hq (by simp)
      | some b =>
          cases hp : colIdAtCur st (2 * n + 1) with
          | none => rw [hb, hp] at hq; exact absurd hq (by simp)
          | some p =>
              rw [hb, hp] at hq
              dsimp only at hq
              cases he : exec ctx n (mkQuery op st.cfg.frame (st.cfg.baseBitmapID + b)
                  (st.cfg.baseProfileID + p)) with
              | some e =>
                  rw [he] at hq
                  dsimp only at hq
                  cases i with
                  | zero =>
                      refine ⟨b, p, ?_, ?_, ?_⟩
                      · rw [Nat.add_zero]; exact hb
                      · rw [Nat.add_zero]; exact hp
                      · exact (Option.some.inj hq).symm
                  | succ i => exact absurd hq (by simp)
              | none =>
                  rw [he] at hq
                  dsimp only at hq
                  cases i with
                  | zero =>
                      refine ⟨b, p, ?_, ?_, ?_⟩
                      · rw [Nat.add_zero]; exact hb
                      · rw [Nat.add_zero]; exact hp
                      · exact (Option.some.inj hq).symm
                  | succ i =>
                      rw [List.get?_cons_succ] at hq
                      have hcur : 2 * n + 2 = 2 * (n + 1) := by omega
                      rw [hcur] at hq
                      obtain ⟨b2, p2, hb2, hp2, hq2⟩ := ih (n + 1) i q hq
                      have hidx : n + 1 + i = n + (i + 1) := by omega
                      rw [hidx] at hb2 hp2
                      exact ⟨b2, p2, hb2, hp2, hq2⟩

/-! Claim theorems. -/

/-- C2: for every domain size `N`, exponent `e` and ratio `r` (in particular
for `e > 0` and `r` in `(0,1)` as the claim quantifies), `getZipfOffset N e r`
returns `z * (N-1) / (1 - z)` where `z = r^(1/e)`: the source formula agrees
with the spec's formula pointwise. -/
theorem c2_offset_formula (N : Int) (e r : ℝ) :
    getZipfOffset N e r = specZipfOffset N e r := rfl

/-- C1: for a fixed configuration and agent index, two Init-then-Run
executions (with any provisioning outcomes, any cancellation flags, and any
execution capabilities that always succeed) produce the exact same sequence
of (row id, column id) pairs; the samplers draw from the stream seeded with
`Seed + agentNum` and the permutation generators are seeded with that seed
and that seed + 1. -/
theorem c1_determinism (cfg : ZipfConfig) (agentNum : Int) (p1 p2 : Option String)
    (st1 st2 : ZipfState) (e1 e2 : Bool → Nat → String → Option String) (c1 c2 : Bool)
    (h1 : (zipfInit cfg agentNum p1 (Except.ok ())).1 = Except.ok st1)
    (h2 : (zipfInit cfg agentNum p2 (Except.ok ())).1 = Except.ok st2)
    (he1 : ∀ c n q, e1 c n q = none) (he2 : ∀ c n q, e2 c n q = none) :
    (zipfRun st1 e1 c1).idPairs = (zipfRun st2 e2 c2).idPairs ∧
    st1.rngSeed = cfg.seed + agentNum ∧
    st1.bitmapPermSeed = cfg.seed + agentNum ∧
    st1.profilePermSeed = cfg.seed + agentNum + 1 := by
  have hs1 := zipfInit_ok_inv cfg agentNum p1 st1 h1
  have hs2 := zipfInit_ok_inv cfg agentNum p2 st2 h2
  subst hs1
  subst hs2
  refine ⟨?_, rfl, rfl, rfl⟩
  rw [zipfRun_exec_congr (zipfInitState cfg agentNum true) e1 e2 c1 c2
    (fun n q => by rw [he1, he2])]

/-- C1 witness: the determinism theorem evaluated for `cfgGood` with agent
number 2, comparing a run with a triggered cancellation flag against one
without. -/
theorem c1_witness :
    ((zipfRun (zipfInitState cfgGood 2 true) (fun _ _ _ => none) true).idPairs =
      (zipfRun (zipfInitState cfgGood 2 true) (fun _ _ _ => none) false).idPairs) ∧
    (zipfInitState cfgGood 2 true).rngSeed = cfgGood.seed + 2 ∧
    (zipfInitState cfgGood 2 true).bitmapPermSeed = cfgGood.seed + 2 ∧
    (zipfInitState cfgGood 2 true).profilePermSeed = cfgGood.seed + 2 + 1 :=
  c1_determinism cfgGood 2 none (some ("x")) _ _ _ _ true false rfl rfl
    (fun _ _ _ => rfl) (fun _ _ _ => rfl)

/-- C3: when the execution capability succeeds on the first `k - 1` calls
and returns an error on the `k`-th call (`1 ≤ k ≤ Iterations`), Run performs
exactly `k - 1` successful calls (that many recorded latencies), sends
exactly `k` queries in total (so calls `k+1 .. Iterations` never happen),
and returns a results map holding only the error. -/
theorem c3_abort_on_failure (st : ZipfState) (exec : Bool → Nat → String → Option String)
    (ctx : Bool) (k : Nat) (ee : String)
    (hsafe : PermSafe st) (hclient : st.clientSet = true)
    (hk1 : 1 ≤ k) (hk2 : (k : Int) ≤ st.cfg.iterations)
    (hok : ∀ c j q, j < k - 1 → exec c j q = none)
    (hfail : ∀ c q, exec c (k - 1) q = some ee) :
    (zipfRun st exec ctx).queries.length = k ∧
    (zipfRun st exec ctx).statsAdds = k - 1 ∧
    (zipfRun st exec ctx).results = [("error", ee)] := by
  obtain ⟨ha1, ha2, ha3⟩ := runLoop_abort st exec ctx (opString st.cfg.operation)
    hsafe (k - 1) ee hok hfail st.cfg.iterations.toNat 0 0 (by omega) (by omega)
  rw [zipfRun_eq st exec ctx hclient]
  refine ⟨?_, ?_, ?_⟩
  · rw [mkRunResult_queries, ha2]; omega
  · rw [mkRunResult_statsAdds, ha3]; omega
  · exact mkRunResult_results_of_err _ _ ha1

/-- C3 witness: with `Iterations = 10` and an execution capability failing on
the fifth call, Run makes exactly five calls, records exactly four
latencies, and returns only the error. -/
theorem c3_witness :
    (zipfRun (zipfInitState cfgTen 0 true) execBoom false).queries.length = 5 ∧
    (zipfRun (zipfInitState cfgTen 0 true) execBoom false).statsAdds = 4 ∧
    (zipfRun (zipfInitState cfgTen 0 true) execBoom false).results = [("error", "boom")] :=
  c3_abort_on_failure (zipfInitState cfgTen 0 true) execBoom false 5 "boom"
    (by decide) rfl (by decide) (by decide)
    (fun c j q hj => by unfold execBoom; rw [if_neg (by omega)])
    (fun c q => rfl)

/-- C4 counterexample: with `operation = "flip"`, Init does return the
error naming `"flip"` as unsupported, but the failure does not happen before
any sampler or permutation generator is constructed: the very first thing
Init does is build a sampler, and all four generators are built before the
rejection, as the full event list shows. -/
theorem c4_counterexample :
    (zipfInit cfgFlip 0 none (Except.ok ())).1 =
      Except.error ("Unsupported operation: \"flip\" (must be \"set\" or \"clear\")") ∧
    (zipfInit cfgFlip 0 none (Except.ok ())).2 =
      [InitEvent.samplerBuilt 7 3, InitEvent.samplerBuilt 7 4,
       InitEvent.permBuilt 4 7, InitEvent.permBuilt 5 8,
       InitEvent.opRejected ("flip")] ∧
    ((zipfInit cfgFlip 0 none (Except.ok ())).2).head? =
      some (InitEvent.samplerBuilt 7 3) :=
  ⟨rfl, by decide, by decide⟩

/-- C4 (amended): for every operation value other than `"set"` and
`"clear"`, Init fails with a configuration error naming the invalid value as
unsupported — but only after both samplers and both permutation generators
have been constructed. -/
theorem c4_amended_invalid_operation (cfg : ZipfConfig) (agentNum : Int)
    (pe : Option String) (cr : Except String Unit)
    (h1 : cfg.operation ≠ "set") (h2 : cfg.operation ≠ "clear") :
    (zipfInit cfg agentNum pe cr).1 =
      Except.error ("Unsupported operation: \"" ++ cfg.operation ++
        "\" (must be \"set\" or \"clear\")") ∧
    (zipfInit cfg agentNum pe cr).2 =
      constructionEvents cfg agentNum ++ [InitEvent.opRejected cfg.operation] := by
  unfold zipfInit
  rw [if_pos ⟨h1, h2⟩]
  exact ⟨rfl, rfl⟩

/-- C4 witness: the amended theorem evaluated at `operation = "flip"`. -/
theorem c4_witness :
    (zipfInit cfgFlip 0 none (Except.ok ())).1 =
      Except.error ("Unsupported operation: \"" ++ cfgFlip.operation ++
        "\" (must be \"set\" or \"clear\")") ∧
    (zipfInit cfgFlip 0 none (Except.ok ())).2 =
      constructionEvents cfgFlip 0 ++ [InitEvent.opRejected cfgFlip.operation] :=
  c4_amended_invalid_operation cfgFlip 0 none (Except.ok ()) (by decide) (by decide)

/-- C5 (code bug evidence): Init performs no validation of ratio, exponent
or domain size — with the invalid `bitmapRatio = 1` (for which the spec
demands a fail-fast configuration error, since the offset formula divides by
zero) Init succeeds and returns the fully constructed state. -/
theorem c5_init_accepts_invalid_ratio :
    cfgRatioOne.bitmapRatio = 1 ∧
    (zipfInit cfgRatioOne 0 none (Except.ok ())).1 =
      Except.ok (zipfInitState cfgRatioOne 0 true) :=
  ⟨rfl, rfl⟩

/-- C6: every query Run sends is exactly
`Op ++ "(frame='" ++ frame ++ "', rowID=" ++ R ++ ", columnID=" ++ C ++ ")"`
where `Op` is `"SetBit"` for operation `"set"` and `"ClearBit"` for
`"clear"`, `R` is `BaseBitmapID` plus the permuted row rank of that
iteration and `C` is `BaseProfileID` plus the permuted column rank. -/
theorem c6_query_text (st : ZipfState) (exec : Bool → Nat → String → Option String)
    (ctx : Bool) (hclient : st.clientSet = true)
    (hop : st.cfg.operation = "set" ∨ st.cfg.operation = "clear")
    (i : Nat) (q : String)
    (hq : (zipfRun st exec ctx).queries.get? i = some q) :
    ∃ b p, rowRankAt st i = some b ∧ colRankAt st i = some p ∧
      q = (if st.cfg.operation = "set" then "SetBit" else "ClearBit") ++ "(frame='" ++
        st.cfg.frame ++ "', rowID=" ++ toString (st.cfg.baseBitmapID + b) ++
        ", columnID=" ++ toString (st.cfg.baseProfileID + p) ++ ")" := by
  rw [zipfRun_eq st exec ctx hclient, mkRunResult_queries] at hq
  obtain ⟨b, p, hb, hp, hqe⟩ := runLoop_queries_get st exec ctx (opString st.cfg.operation)
    st.cfg.iterations.toNat 0 i q hq
  rw [Nat.zero_add] at hb hp
  refine ⟨b, p, hb, hp, ?_⟩
  rw [hqe]
  unfold mkQuery opString
  rcases hop with h | h <;> rw [h] <;> rfl

/-- C6 witness: the first query of a concrete run of `cfgGood`. -/
theorem c6_witness :
    ∃ b p, rowRankAt (zipfInitState cfgGood 0 true) 0 = some b ∧
      colRankAt (zipfInitState cfgGood 0 true) 0 = some p ∧
      "SetBit(frame='f', rowID=103, columnID=2001)" =
        (if (zipfInitState cfgGood 0 true).cfg.operation = "set" then "SetBit"
          else "ClearBit") ++ "(frame='" ++ (zipfInitState cfgGood 0 true).cfg.frame ++
          "', rowID=" ++ toString ((zipfInitState cfgGood 0 true).cfg.baseBitmapID + b) ++
          ", columnID=" ++ toString ((zipfInitState cfgGood 0 true).cfg.baseProfileID + p) ++
          ")" :=
  c6_query_text (zipfInitState cfgGood 0 true) (fun _ _ _ => none) true rfl
    (Or.inl rfl) 0 "SetBit(frame='f', rowID=103, columnID=2001)" rfl

/-- C7: the outcome of the one-time `initIndex` provisioning call never
changes what Init returns (a provisioning error is only logged), and when
the operation is valid, Init continues past a failed provisioning call: the
failure is logged and the final client initialization still happens. -/
theorem c7_provisioning_nonfatal (cfg : ZipfConfig) (agentNum : Int)
    (cr : Except String Unit) (e : String) :
    (zipfInit cfg agentNum (some e) cr).1 = (zipfInit cfg agentNum none cr).1 ∧
    ((cfg.operation = "set" ∨ cfg.operation = "clear") →
      InitEvent.provisionFailedLogged e ∈ (zipfInit cfg agentNum (some e) cr).2 ∧
      (InitEvent.clientInit true ∈ (zipfInit cfg agentNum (some e) cr).2 ∨
        InitEvent.clientInit false ∈ (zipfInit cfg agentNum (some e) cr).2)) := by
  unfold zipfInit
  by_cases hcon : cfg.operation ≠ "set" ∧ cfg.operation ≠ "clear"
  · rw [if_pos hcon, if_pos hcon]
    exact ⟨rfl, fun hop => absurd hop (by tauto)⟩
  · rw [if_neg hcon, if_neg hcon]
    cases cr with
    | error e2 =>
        refine ⟨rfl, fun _ => ⟨?_, Or.inr ?_⟩⟩ <;> simp [zipfInit.provLog]
    | ok u =>
        refine ⟨rfl, fun _ => ⟨?_, Or.inl ?_⟩⟩ <;> simp [zipfInit.provLog]

/-- C7 witness: the provisioning-leniency theorem evaluated for `cfgGood`
with a concrete failed provisioning call. -/
theorem c7_witness :
    ((zipfInit cfgGood 2 (some ("net down")) (Except.ok ())).1 =
      (zipfInit cfgGood 2 none (Except.ok ())).1) ∧
    InitEvent.provisionFailedLogged "net down" ∈
      (zipfInit cfgGood 2 (some ("net down")) (Except.ok ())).2 ∧
    (InitEvent.clientInit true ∈ (zipfInit cfgGood 2 (some ("net down")) (Except.ok ())).2 ∨
      InitEvent.clientInit false ∈ (zipfInit cfgGood 2 (some ("net down")) (Except.ok ())).2) :=
  ⟨(c7_provisioning_nonfatal cfgGood 2 (Except.ok ()) ("net down")).1,
    (c7_provisioning_nonfatal cfgGood 2 (Except.ok ()) ("net down")).2 (Or.inl rfl)⟩

/-- C8 counterexample: with the cancellation signal triggered from the very
start and `Iterations = 2`, Run still performs both iterations (two queries
sent) and returns plain statistics with no cancellation indicator — and its
entire output is identical to the run whose signal is not triggered.  The
claim's top-of-iteration check, early stop and cancellation indicator do not
exist in the code. -/
theorem c8_counterexample :
    (zipfRun (zipfInitState cfgTwo 0 true) (fun _ _ _ => none) true).queries.length = 2 ∧
    (zipfRun (zipfInitState cfgTwo 0 true) (fun _ _ _ => none) true).results =
      [("count", "2")] ∧
    zipfRun (zipfInitState cfgTwo 0 true) (fun _ _ _ => none) true =
      zipfRun (zipfInitState cfgTwo 0 true) (fun _ _ _ => none) false :=
  ⟨rfl, rfl, rfl⟩

/-- C8 (amended): Run never consults the cancellation signal; it only
forwards it to the execution capability.  With an execution capability whose
behavior does not depend on that signal, Run's entire output is independent
of the signal, and the results map never carries a cancellation indicator —
its only possible keys are the error entry and the statistics entries. -/
theorem c8_amended_ctx_ignored (st : ZipfState) (exec : Nat → String → Option String)
    (c1 c2 : Bool) :
    zipfRun st (fun _ => exec) c1 = zipfRun st (fun _ => exec) c2 ∧
    ∀ kv ∈ (zipfRun st (fun _ => exec) c1).results, kv.1 = "error" ∨ kv.1 = "count" := by
  constructor
  · exact zipfRun_exec_congr st _ _ c1 c2 (fun n q => rfl)
  · intro kv hkv
    unfold zipfRun at hkv
    by_cases hc : st.clientSet = false
    · rw [if_pos hc] at hkv
      dsimp only at hkv
      simp only [List.mem_singleton] at hkv
      subst hkv
      exact Or.inl rfl
    · rw [if_neg hc] at hkv
      exact mkRunResult_results_keys _ kv hkv

/-- C9: after construction with matching domain sizes (any positive ranges
representable in `int64`), every rank either sampler draws lies strictly
below its domain size (and is a natural number, hence nonnegative), the
permuted id of every iteration is defined — the rank passed to each
permutation generator satisfies its in-range precondition — and the
defensive rank-out-of-bounds failure never occurs during Run. -/
theorem c9_ranks_in_range (cfg : ZipfConfig) (agentNum : Int) (clientOk : Bool)
    (hb1 : 0 < cfg.bitmapIDRange) (hb2 : cfg.bitmapIDRange ≤ 2 ^ 63)
    (hp1 : 0 < cfg.profileIDRange) (hp2 : cfg.profileIDRange ≤ 2 ^ 63) :
    (∀ cur, ((zipfUint64 (zipfInitState cfg agentNum clientOk).rngSeed cur
        (zipfInitState cfg agentNum clientOk).bitmapImax : Nat) : Int) <
        cfg.bitmapIDRange) ∧
    (∀ cur, ((zipfUint64 (zipfInitState cfg agentNum clientOk).rngSeed cur
        (zipfInitState cfg agentNum clientOk).profileImax : Nat) : Int) <
        cfg.profileIDRange) ∧
    (∀ n, (rowRankAt (zipfInitState cfg agentNum clientOk) n).isSome) ∧
    (∀ n, (colRankAt (zipfInitState cfg agentNum clientOk) n).isSome) ∧
    (∀ exec ctx,
      (zipfRun (zipfInitState cfg agentNum clientOk) exec ctx).rankFailure = false) := by
  have hsafe := permSafe_initState cfg agentNum clientOk hb1 hb2 hp1 hp2
  obtain ⟨s1, s2, s3, s4⟩ := hsafe
  have hbr : ((zipfInitState cfg agentNum clientOk).bitmapImax : Int) < cfg.bitmapIDRange := s2
  have hpr : ((zipfInitState cfg agentNum clientOk).profileImax : Int) < cfg.profileIDRange := s4
  refine ⟨?_, ?_, ?_, ?_, ?_⟩
  · intro cur
    have hle := zipfUint64_le (zipfInitState cfg agentNum clientOk).rngSeed cur
      (zipfInitState cfg agentNum clientOk).bitmapImax
    omega
  · intro cur
    have hle := zipfUint64_le (zipfInitState cfg agentNum clientOk).rngSeed cur
      (zipfInitState cfg agentNum clientOk).profileImax
    omega
  · intro n
    obtain ⟨b, hb⟩ := rowIdAtCur_some (zipfInitState cfg agentNum clientOk) s1 s2 (2 * n)
    rw [rowRankAt, hb]
    rfl
  · intro n
    obtain ⟨p, hp⟩ := colIdAtCur_some (zipfInitState cfg agentNum clientOk) s3 s4 (2 * n + 1)
    rw [colRankAt, hp]
    rfl
  · intro exec ctx
    unfold zipfRun
    by_cases hc : (zipfInitState cfg agentNum clientOk).clientSet = false
    · rw [if_pos hc]
    · rw [if_neg hc, mkRunResult_rankFailure]
      exact runLoop_rankErr_false _ exec ctx _ ⟨s1, s2, s3, s4⟩ _ 0 0

/-- C9 witness: the range-safety theorem evaluated for `cfgGood`. -/
theorem c9_witness :
    (∀ cur, ((zipfUint64 (zipfInitState cfgGood 0 true).rngSeed cur
        (zipfInitState cfgGood 0 true).bitmapImax : Nat) : Int) <
        cfgGood.bitmapIDRange) ∧
    (∀ cur, ((zipfUint64 (zipfInitState cfgGood 0 true).rngSeed cur
        (zipfInitState cfgGood 0 true).profileImax : Nat) : Int) <
        cfgGood.profileIDRange) ∧
    (∀ n, (rowRankAt (zipfInitState cfgGood 0 true) n).isSome) ∧
    (∀ n, (colRankAt (zipfInitState cfgGood 0 true) n).isSome) ∧
    (∀ exec ctx, (zipfRun (zipfInitState cfgGood 0 true) exec ctx).rankFailure = false) :=
  c9_ranks_in_range cfgGood 0 true (by decide) (by decide) (by decide) (by decide)

/-- C10: whenever no client is set, Run performs zero iterations and zero
external calls and returns a results map holding only the error entry
saying no client is set. -/
theorem c10_nil_client (st : ZipfState) (exec : Bool → Nat → String → Option String)
    (ctx : Bool) (h : st.clientSet = false) :
    zipfRun st exec ctx =
      { results := [("error", "No client set for Zipf")], queries := [], idPairs := []
        statsAdds := 0, rankFailure := false } := by
  unfold zipfRun
  rw [if_pos h]

/-- C10 witness: the nil-client theorem evaluated on a concrete state whose
client is unset. -/
theorem c10_witness :
    zipfRun (zipfInitState cfgGood 0 false) (fun _ _ _ => none) true =
      { results := [("error", "No client set for Zipf")], queries := [], idPairs := []
        statsAdds := 0, rankFailure := false } :=
  c10_nil_client (zipfInitState cfgGood 0 false) (fun _ _ _ => none) true rfl

end ZipfBench
